/-
Verification of the two guesser modules of the `qb` question-answering
repository:

  * `qanta/guesser/elasticsearch_wikidata.py` — an information-retrieval
    guesser backed by an external text-search index and a learned
    human/non-human classifier;
  * `qanta/guesser/rnn.py` — a recurrent-network sequence classifier.

The Python code is shallowly embedded: dictionaries become association
lists, Python exceptions become an `Except PyError` monad (an exception
aborts the surrounding computation exactly where the Python statement
raising it sits), and `None`-able attributes become `Option` fields.
External collaborators (the search service, the pickled classifier, keras
networks, the Spark parallel map, the tokenizer, the Wikipedia content
store) are opaque in the source and are modelled as explicitly passed
oracle values, per the contracts the repository relies on.  Functions of
the repository that the two files call but whose sources are not part of
this excerpt (`qanta.guesser.nn`, `qanta.preprocess`) are modelled from
the specification's description of them and are marked as such in their
doc comments.
-/
import Mathlib

namespace QB

/-- The Python exceptions the embedded code can raise.  `attributeError`
and `typeError` are the "null-reference-style" failures produced by using
a `None` value; `keyError`/`indexError` come from missing dictionary keys
or list positions; `valueError` is an explicit `raise ValueError`;
`notFoundError` is `elasticsearch.exceptions.NotFoundError`. -/
inductive PyError where
  | keyError : String → PyError
  | indexError : String → PyError
  | attributeError : String → PyError
  | typeError : String → PyError
  | valueError : String → PyError
  | notFoundError : PyError
deriving DecidableEq, Repr, Inhabited

/-- A Python list comprehension `[f x for x in l]` in which `f` may raise:
elements are processed left to right and the first exception aborts the
whole comprehension.  Also models Spark's
`parallelize(l).map(f).collect()`, whose contract collects results in the
input order. -/
def pyMapE (f : α → Except PyError β) : List α → Except PyError (List β)
  | [] => .ok []
  | a :: l =>
    match f a with
    | .error e => .error e
    | .ok b =>
      match pyMapE f l with
      | .error e => .error e
      | .ok bs => .ok (b :: bs)

theorem pyMapE_ok {f : α → Except PyError β} {g : α → β} :
    ∀ l : List α, (∀ a ∈ l, f a = .ok (g a)) → pyMapE f l = .ok (l.map g) := by
  intro l h
  induction l with
  | nil => rfl
  | cons a t ih =>
    have ha : f a = .ok (g a) := h a (List.mem_cons_self a t)
    have ht : pyMapE f t = .ok (t.map g) := ih fun x hx => h x (List.mem_cons_of_mem a hx)
    simp [pyMapE, ha, ht]

theorem pyMapE_cons_error {f : α → Except PyError β} {a : α} {e : PyError}
    (h : f a = .error e) (l : List α) : pyMapE f (a :: l) = .error e := by
  simp [pyMapE, h]

/-- Python slicing `l[:k]`.  `k = None` keeps the whole list; a
nonnegative `k` keeps the first `k` elements (fewer if the list is
shorter); a negative `k` drops the last `-k` elements, as Python slices
do. -/
def pySlice (l : List α) (k : Option Int) : List α :=
  match k with
  | none => l
  | some n => if 0 ≤ n then l.take n.toNat else l.take (l.length - (-n).toNat)

theorem pySlice_none (l : List α) : pySlice l none = l := rfl

theorem pySlice_length_le (l : List α) (n : Int) (hn : 0 ≤ n) :
    ((pySlice l (some n)).length : Int) ≤ n := by
  simp only [pySlice, if_pos hn]
  calc ((l.take n.toNat).length : Int) ≤ (n.toNat : Int) := by
        exact_mod_cast List.length_take_le n.toNat l
    _ = n := Int.toNat_of_nonneg hn

theorem pySlice_subset (l : List α) (k : Option Int) : pySlice l k ⊆ l := by
  cases k with
  | none => exact fun a h => h
  | some n =>
    simp only [pySlice]
    split
    · exact fun a h => List.mem_of_mem_take h
    · exact fun a h => List.mem_of_mem_take h

/-- `l.getD` of a `List.map`, inside the length bound. -/
theorem getD_map_lt {f : α → β} {l : List α} {i : Nat} (h : i < l.length)
    (d : α) (d' : β) : (l.map f).getD i d' = f (l.getD i d) := by
  induction l generalizing i with
  | nil => simp at h
  | cons a t ih =>
    cases i with
    | zero => rfl
    | succ j =>
      have hj : j < t.length := Nat.lt_of_succ_lt_succ h
      simpa [List.getD] using ih hj

/-- `l.get?` succeeds inside the length bound and returns the `getD`
value. -/
theorem get?_eq_getD_of_lt {l : List α} {i : Nat} (h : i < l.length) (d : α) :
    l.get? i = some (l.getD i d) := by
  induction l generalizing i with
  | nil => simp at h
  | cons a t ih =>
    cases i with
    | zero => rfl
    | succ j =>
      have hj : j < t.length := Nat.lt_of_succ_lt_succ h
      simpa [List.getD] using ih hj

/-- Zipping two maps of the same list pointwise. -/
theorem zip_map_same (f : α → β) (g : α → γ) :
    ∀ l : List α, (l.map f).zip (l.map g) = l.map fun a => (f a, g a)
  | [] => rfl
  | a :: t => by simp [zip_map_same f g t]

/-! ## `qanta/guesser/elasticsearch_wikidata.py`

Relevance scores and classifier outputs are real numbers in the source;
they are modelled as rationals, since every claim about them concerns
only list structure and order comparisons, never rounding. -/

/-- The fitted human/non-human classifier (a pickled sklearn
tf-idf + ridge pipeline).  It is an opaque external artifact; the source
only ever observes it through `bool(is_human_model.transform([q])[0])`,
so it is modelled as that observable behaviour: query text in, predicted
human flag out. -/
def HumanModel : Type := String → Bool

/-- The search oracle behind `es_index.search`: the external text-search
service answering a multi-field relevance query filtered by the human
flag with an ordered list of `(page, score)` hits. -/
def SearchOracle : Type := String → Bool → List (String × ℚ)

/-- One document of the `qb` index, mirroring the `Answer` DocType:
`page`, `wiki_content` (from `CachedWikipedia`), `qb_content` (aggregated
question text) and `is_human`. -/
structure AnswerDoc where
  page : String
  wiki_content : String
  qb_content : String
  is_human : Bool
deriving DecidableEq, Repr

/-- The state of the external index named `qb`: `none` when no such index
exists, `some docs` when it holds documents `docs` in insertion order. -/
structure ESState where
  index : Option (List AnswerDoc)
deriving DecidableEq, Repr

/-- `Index('qb').delete()`: raises `NotFoundError` when the index does
not exist, otherwise removes it. -/
def indexDelete (st : ESState) : Except PyError ESState :=
  match st.index with
  | none => .error .notFoundError
  | some _ => .ok ⟨none⟩

/-- `ElasticSearchIndex.build(documents, is_human_map)`.  The attempted
delete of a pre-existing index catches `NotFoundError` (the miss is only
logged); `Answer.init()` then (re)creates the empty index, and one
document per entry of `documents` is saved, combining the aggregated
question text, the Wikipedia content `cw[page].content` for the page, and
the page's human flag `is_human_map[page]` (a dictionary access that
raises `KeyError` for a missing page).  `documents` is an association
list standing for the Python dict (keys distinct, iteration in insertion
order); `cw` is the external Reference Content Store. -/
def ElasticSearchIndex.build (st : ESState) (documents : List (String × String))
    (is_human_map : List (String × Bool)) (cw : String → String) :
    Except PyError ESState :=
  let _afterDelete : ESState :=
    match indexDelete st with
    | .ok s => s
    | .error _ => st
  match pyMapE (fun pq =>
      match List.lookup pq.1 is_human_map with
      | none => .error (PyError.keyError pq.1)
      | some ih =>
        .ok { page := pq.1, wiki_content := cw pq.1, qb_content := pq.2,
              is_human := ih }) documents with
  | .error e => .error e
  | .ok docs => .ok ⟨some docs⟩

/-- `create_is_human_map`: for each page of the instance-of map, the flag
is whether `'Human'` is among its type labels.  The instance-of map's
label sets are modelled as lists with membership. -/
def create_is_human_map (instance_of_map : List (String × List String)) :
    List (String × Bool) :=
  instance_of_map.map fun pp => (pp.1, pp.2.contains "Human")

/-- `format_human_data`: zips questions with pages; each question's
sentences are joined into one text, and the label is
`int(is_human_map[format_guess(p)])` — a dictionary access that raises
`KeyError` when the formatted page is absent.  `fg` is
`qanta.preprocess.format_guess`, an external normalization function. -/
def format_human_data (fg : String → String) (is_human_map : List (String × Bool))
    (questions : List (List String)) (pages : List String) :
    Except PyError (List String × List Nat) :=
  match pyMapE (fun qp =>
      match List.lookup (fg qp.2) is_human_map with
      | none => .error (PyError.keyError (fg qp.2))
      | some b => .ok (" ".intercalate qp.1, if b then 1 else 0))
      (questions.zip pages) with
  | .error e => .error e
  | .ok rows => .ok (rows.map Prod.fst, rows.map Prod.snd)

/-- `ElasticSearchWikidataGuesser`: its only persistent state is the
human-classifier, `None` until trained or loaded. -/
structure ESGuesser where
  is_human_model : Option HumanModel

/-- `ElasticSearchWikidataGuesser.guess(questions, max_n_guesses)`: each
question is independently classified
(`bool(is_human_model.transform([query])[0])` — an `AttributeError` on a
`None` model), searched with that flag, and the hit list sliced to
`max_n_guesses`; the parallel map collects the per-question results in
input order. -/
def ESGuesser.guess (g : ESGuesser) (es : SearchOracle) (questions : List String)
    (max_n_guesses : Option Int) : Except PyError (List (List (String × ℚ))) :=
  pyMapE (fun query =>
      match g.is_human_model with
      | none => .error (PyError.attributeError "NoneType object has no attribute transform")
      | some model => .ok (pySlice (es query (model query)) max_n_guesses))
    questions

/-- The pickled blob `{'is_human_model': ...}` written by
`ElasticSearchWikidataGuesser.save`. -/
structure ESBlob where
  is_human_model : Option HumanModel

/-- `ElasticSearchWikidataGuesser.save(directory)`. -/
def ESGuesser.save (g : ESGuesser) : ESBlob := ⟨g.is_human_model⟩

/-- `ElasticSearchWikidataGuesser.load(directory)`. -/
def ESGuesser.load (b : ESBlob) : ESGuesser := ⟨b.is_human_model⟩

/-! ## `qanta/guesser/rnn.py` -/

/-- The reserved index the Sequence Encoder resolves unknown tokens to;
distinct from the pad index `0`. -/
def unkIndex : Nat := 1

/-- Modelled from the spec: `nn.convert_text_to_embeddings_indices`
(`qanta/guesser/nn.py` is not part of this excerpt).  The Sequence
Encoder maps each token through the word-to-row lookup; unknown tokens
resolve to the fixed unknown index, never to the pad index `0`. -/
def convert_text_to_embeddings_indices (tokens : List String)
    (embedding_lookup : List (String × Nat)) : List Nat :=
  tokens.map fun w => (List.lookup w embedding_lookup).getD unkIndex

/-- Modelled from the spec: the per-sequence step of `nn.tf_format`
(`qanta/guesser/nn.py` is not part of this excerpt).  A sequence longer
than `max_len` is truncated to its first `max_len` tokens (trailing
tokens dropped); a shorter one is padded with `pad_value` to exactly
`max_len` (padding side chosen as the keras default, before the data —
no claim depends on the side, only on both pipelines sharing it). -/
def fmtSeq (max_len pad_value : Nat) (s : List Nat) : List Nat :=
  let t := s.take max_len
  List.replicate (max_len - t.length) pad_value ++ t

/-- Modelled from the spec: `nn.tf_format(xs, max_len, pad_value)`
(`qanta/guesser/nn.py` is not part of this excerpt) — pad or truncate
every sequence to a rectangular matrix. -/
def tf_format (xs : List (List Nat)) (max_len pad_value : Nat) : List (List Nat) :=
  xs.map (fmtSeq max_len pad_value)

/-- Modelled from the spec: `nn.compute_n_classes(training_data[1])`
(`qanta/guesser/nn.py` is not part of this excerpt) — the class count is
the number of distinct trainable answers. -/
def compute_n_classes (answers : List String) : Nat :=
  answers.eraseDups.length

/-- A training set as the two components the RNN guesser reads:
tokenized questions and their answer labels. -/
structure TrainingData where
  questions : List (List String)
  answers : List String

/-- Modelled from the spec: `nn.compute_max_len(training_data)`
(`qanta/guesser/nn.py` is not part of this excerpt) — the stored maximum
sequence length is the longest training question, in tokens. -/
def compute_max_len (td : TrainingData) : Nat :=
  (td.questions.map List.length).foldr max 0

/-- The recurrent cell families `build_model` accepts. -/
inductive RNNCell where
  | lstm
  | gru
  | simpleRNN
deriving DecidableEq, Repr, Inhabited

/-- The architecture `build_model` assembles: embedding layer (vocabulary
rows, output dimension 300, pad index masked, input length from the
stored maximum), one recurrent layer, dropout, a dense projection to the
class count, batch normalization, dropout, softmax.  The option-typed
fields record exactly the attribute values passed to keras. -/
structure NetSpec where
  cell : RNNCell
  vocabSize : Nat
  outputDim : Nat
  maskZero : Bool
  inputLength : Option Nat
  nClasses : Option Nat
deriving Repr, Inhabited

/-- A keras model: its architecture plus its (trained or untrained)
forward pass, an external numeric computation modelled as a function from
one encoded row to a class-probability row. -/
structure KerasModel where
  spec : NetSpec
  predict : List Nat → List ℚ
deriving Inhabited

/-- The `conf['guessers']['RNN']` entries `__init__` reads. -/
structure RNNConfig where
  rnn_cell : String
  min_answers : Nat
  expand_we : Bool
deriving Repr, Inhabited

/-- The `RNNGuesser` instance state; every attribute `__init__` sets to
`None` is an `Option`. -/
structure RNNGuesser where
  rnn_cell : String
  min_answers : Nat
  expand_we : Bool
  embeddings : Option (List (List ℚ))
  embedding_lookup : Option (List (String × Nat))
  max_len : Option Nat
  i_to_class : Option (List String)
  class_to_i : Option (List (String × Nat))
  vocab : Option (List String)
  n_classes : Option Nat
  model : Option KerasModel
  max_n_epochs : Nat
  batch_size : Nat
  max_patience : Nat
deriving Inhabited

/-- `RNNGuesser.__init__`: configuration-driven fields from `conf`, every
learned field `None`, and the literal training hyperparameters. -/
def RNNGuesser.init (c : RNNConfig) : RNNGuesser where
  rnn_cell := c.rnn_cell
  min_answers := c.min_answers
  expand_we := c.expand_we
  embeddings := none
  embedding_lookup := none
  max_len := none
  i_to_class := none
  class_to_i := none
  vocab := none
  n_classes := none
  model := none
  max_n_epochs := 100
  batch_size := 128
  max_patience := 5

/-- The pickled parameter blob: the twelve keys of `dump_parameters`. -/
structure RNNParams where
  rnn_cell : String
  min_answers : Nat
  embeddings : Option (List (List ℚ))
  embedding_lookup : Option (List (String × Nat))
  max_len : Option Nat
  i_to_class : Option (List String)
  class_to_i : Option (List (String × Nat))
  vocab : Option (List String)
  n_classes : Option Nat
  max_n_epochs : Nat
  batch_size : Nat
  max_patience : Nat
deriving Inhabited

/-- `RNNGuesser.dump_parameters`. -/
def RNNGuesser.dump_parameters (g : RNNGuesser) : RNNParams where
  rnn_cell := g.rnn_cell
  min_answers := g.min_answers
  embeddings := g.embeddings
  embedding_lookup := g.embedding_lookup
  max_len := g.max_len
  i_to_class := g.i_to_class
  class_to_i := g.class_to_i
  vocab := g.vocab
  n_classes := g.n_classes
  max_n_epochs := g.max_n_epochs
  batch_size := g.batch_size
  max_patience := g.max_patience

/-- `RNNGuesser.load_parameters`: overwrites the twelve dumped fields,
leaving `expand_we` and `model` as they were. -/
def RNNGuesser.load_parameters (g : RNNGuesser) (p : RNNParams) : RNNGuesser :=
  { g with
    rnn_cell := p.rnn_cell
    min_answers := p.min_answers
    embeddings := p.embeddings
    embedding_lookup := p.embedding_lookup
    max_len := p.max_len
    i_to_class := p.i_to_class
    class_to_i := p.class_to_i
    vocab := p.vocab
    n_classes := p.n_classes
    max_n_epochs := p.max_n_epochs
    batch_size := p.batch_size
    max_patience := p.max_patience }

/-- The second half of `build_model`: the layer stack, reached only after
a cell family was selected.  `self.embeddings.shape[0]` is an attribute
access raising on a `None` embeddings matrix. -/
def buildWithCell (g : RNNGuesser) (cell : RNNCell) : Except PyError NetSpec :=
  match g.embeddings with
  | none => .error (PyError.attributeError "NoneType object has no attribute shape")
  | some emb =>
    .ok { cell := cell, vocabSize := emb.length, outputDim := 300,
          maskZero := true, inputLength := g.max_len, nClasses := g.n_classes }

/-- `RNNGuesser.build_model`: selects the cell family, raising
`ValueError` (with the source's literal message) for any unsupported
`rnn_cell` before any layer is built. -/
def RNNGuesser.build_model (g : RNNGuesser) : Except PyError NetSpec :=
  if g.rnn_cell = "lstm" then buildWithCell g RNNCell.lstm
  else if g.rnn_cell = "gru" then buildWithCell g RNNCell.gru
  else if g.rnn_cell = "simple_rnn" then buildWithCell g RNNCell.simpleRNN
  else .error (PyError.valueError
    ("rnn_cell must be lstm, gru, or simple_rdd and was: " ++ g.rnn_cell))

/-- The order in which `np.argsort(-row)` lists class ids: by strictly
descending probability, equal probabilities by ascending class id.
`np.argsort` guarantees an index permutation sorting the (negated) values
ascending but leaves the order of equal values unspecified; the embedding
refines that to the deterministic ascending-id choice, which is what
numpy's small-array insertion sort produces. -/
def rowOrd (row : List ℚ) (i j : Nat) : Prop :=
  row.getD j 0 < row.getD i 0 ∨ (row.getD i 0 = row.getD j 0 ∧ i ≤ j)

instance (row : List ℚ) : DecidableRel (rowOrd row) := fun i j => by
  unfold rowOrd
  infer_instance

theorem rowOrd_total (row : List ℚ) : ∀ i j, rowOrd row i j ∨ rowOrd row j i := by
  intro i j
  rcases lt_trichotomy (row.getD i 0) (row.getD j 0) with h | h | h
  · exact Or.inr (Or.inl h)
  · rcases Nat.le_total i j with hij | hij
    · exact Or.inl (Or.inr ⟨h, hij⟩)
    · exact Or.inr (Or.inr ⟨h.symm, hij⟩)
  · exact Or.inl (Or.inl h)

theorem rowOrd_trans (row : List ℚ) :
    ∀ i j k, rowOrd row i j → rowOrd row j k → rowOrd row i k := by
  intro i j k hij hjk
  rcases hij with h1 | ⟨e1, l1⟩
  · rcases hjk with h2 | ⟨e2, _⟩
    · exact Or.inl (h2.trans h1)
    · exact Or.inl (e2 ▸ h1)
  · rcases hjk with h2 | ⟨e2, l2⟩
    · exact Or.inl (e1 ▸ h2)
    · exact Or.inr ⟨e1.trans e2, l1.trans l2⟩

/-- `np.argsort(-row)`: the class ids `0, …, row.length - 1` ordered by
descending probability (ties by ascending id, see `rowOrd`). -/
def argsortDesc (row : List ℚ) : List Nat :=
  List.insertionSort (rowOrd row) (List.range row.length)

theorem argsortDesc_perm (row : List ℚ) :
    (argsortDesc row).Perm (List.range row.length) :=
  List.perm_insertionSort (rowOrd row) (List.range row.length)

theorem argsortDesc_sorted (row : List ℚ) :
    List.Sorted (rowOrd row) (argsortDesc row) :=
  haveI : IsTotal Nat (rowOrd row) := ⟨rowOrd_total row⟩
  haveI : IsTrans Nat (rowOrd row) := ⟨rowOrd_trans row⟩
  List.sorted_insertionSort (rowOrd row) (List.range row.length)

theorem mem_argsortDesc {row : List ℚ} {i : Nat} (h : i ∈ argsortDesc row) :
    i < row.length :=
  List.mem_range.mp ((argsortDesc_perm row).mem_iff.mp h)

/-- The body of the per-question loop of `RNNGuesser.guess`: slice the
argsort of the probability row to `max_n_guesses`, map each selected id
through `i_to_class` (a position access that raises `IndexError` when
out of range), and pair with the selected probabilities. -/
def topGuesses (i_to_class : List String) (max_n_guesses : Option Int)
    (row : List ℚ) : Except PyError (List (String × ℚ)) :=
  let sorted_labels := pySlice (argsortDesc row) max_n_guesses
  match pyMapE (fun i =>
      match i_to_class.get? i with
      | none => .error (PyError.indexError "list index out of range")
      | some p => .ok p) sorted_labels with
  | .error e => .error e
  | .ok sorted_guesses =>
    .ok (sorted_guesses.zip (sorted_labels.map fun i => row.getD i 0))

/-- The exception-free value `topGuesses` computes when every selected id
is inside `i_to_class`. -/
def topPairs (i_to_class : List String) (max_n_guesses : Option Int)
    (row : List ℚ) : List (String × ℚ) :=
  (pySlice (argsortDesc row) max_n_guesses).map fun i =>
    (i_to_class.getD i "", row.getD i 0)

/-- Lines 164–165 of `rnn.py`: the per-question encode (tokenize, look up
embedding indices) for every question, then the pad/truncate format with
the stored `max_len` and pad value `0`.  Using a `None` lookup or a
`None` length inside those calls is a `None`-misuse failure. -/
def RNNGuesser.guessEncodeBatch (g : RNNGuesser) (tok : String → List String)
    (questions : List String) : Except PyError (List (List Nat)) :=
  match pyMapE (fun q =>
      match g.embedding_lookup with
      | none => .error (PyError.typeError "argument of type NoneType is not iterable")
      | some lookup => .ok (convert_text_to_embeddings_indices (tok q) lookup))
      questions with
  | .error e => .error e
  | .ok x_raw =>
    match g.max_len with
    | none => .error (PyError.typeError "NoneType cannot be interpreted as an integer")
    | some max_len => .ok (tf_format x_raw max_len 0)

/-- `RNNGuesser.guess(questions, max_n_guesses)`: encode the questions
through the training pipeline, run the network's forward pass
(`self.model.predict_proba` — an attribute access raising on a `None`
model) to get one probability row per question, and decode each row with
`topGuesses`.  `tok` is `qanta.preprocess.tokenize_question`, an external
tokenizer. -/
def RNNGuesser.guess (g : RNNGuesser) (tok : String → List String)
    (questions : List String) (max_n_guesses : Option Int) :
    Except PyError (List (List (String × ℚ))) :=
  match g.guessEncodeBatch tok questions with
  | .error e => .error e
  | .ok x_test =>
    match g.model with
    | none => .error (PyError.attributeError "NoneType object has no attribute predict_proba")
    | some model =>
      let class_probabilities := x_test.map model.predict
      match g.i_to_class with
      | none => .error (PyError.typeError "NoneType object is not subscriptable")
      | some i_to_class =>
        pyMapE (topGuesses i_to_class max_n_guesses) class_probabilities

/-- The result of `qanta.preprocess.preprocess_dataset` (external to this
excerpt): train/test token sequences with dense integer labels, the
vocabulary, and the two class maps. -/
structure PreprocessedData where
  x_train : List (List String)
  y_train : List Nat
  x_test : List (List String)
  y_test : List Nat
  vocab : List String
  class_to_i : List (String × Nat)
  i_to_class : List String
deriving Inhabited

/-- The external collaborators `RNNGuesser.train` calls:
`preprocess_dataset`, the cached `load_embeddings` builder, and the keras
`fit` loop (which returns the trained forward pass and the per-epoch
metric history). -/
structure TrainEnv where
  preprocess : TrainingData → PreprocessedData
  load_embeddings : List String → Bool → (List (List ℚ) × List (String × Nat))
  fit : NetSpec → List (List Nat) → List Nat → List (List Nat) → List Nat →
    Nat → Nat → ((List Nat → List ℚ) × List (List ℚ))
deriving Inhabited

/-- What a successful `RNNGuesser.train` leaves behind: the updated
guesser (whose `model` is also the network staged to the tmp file), the
formatted train/test matrices that were handed to `fit`, and the training
history. -/
structure TrainOutcome where
  guesser : RNNGuesser
  x_train_fmt : List (List Nat)
  x_test_fmt : List (List Nat)
  history : List (List ℚ)
deriving Inhabited

/-- `RNNGuesser.train(training_data)`, lines 122–160 of `rnn.py`:
preprocess, store the class maps and vocabulary, build the embedding
table and lookup, convert both splits to embedding indices, store
`n_classes` and `max_len`, format both splits with `tf_format(_, max_len,
0)`, build the model (the only step that can raise), fit, and stage the
trained network. -/
def RNNGuesser.train (g : RNNGuesser) (env : TrainEnv) (td : TrainingData) :
    Except PyError TrainOutcome :=
  let pp := env.preprocess td
  let g1 := { g with class_to_i := some pp.class_to_i,
                     i_to_class := some pp.i_to_class, vocab := some pp.vocab }
  let el := env.load_embeddings pp.vocab g1.expand_we
  let g2 := { g1 with embeddings := some el.1, embedding_lookup := some el.2 }
  let x_train0 := pp.x_train.map fun q => convert_text_to_embeddings_indices q el.2
  let x_test0 := pp.x_test.map fun q => convert_text_to_embeddings_indices q el.2
  let g3 := { g2 with n_classes := some (compute_n_classes td.answers),
                      max_len := some (compute_max_len td) }
  let x_train := tf_format x_train0 (compute_max_len td) 0
  let x_test := tf_format x_test0 (compute_max_len td) 0
  match g3.build_model with
  | .error e => .error e
  | .ok spec =>
    let fr := env.fit spec x_train pp.y_train x_test pp.y_test g3.batch_size g3.max_n_epochs
    let g4 := { g3 with model := some ⟨spec, fr.1⟩ }
    .ok { guesser := g4, x_train_fmt := x_train, x_test_fmt := x_test, history := fr.2 }

/-- The two artifacts `RNNGuesser.save(directory)` writes: the staged
network file copied to `final_rnn.keras` and the pickled
`rnn_params.pickle` blob. -/
structure SavedDir where
  model_file : KerasModel
  params_file : RNNParams
deriving Inhabited

/-- `RNNGuesser.save(directory)`: copies the staged tmp network (the file
`train` wrote, passed here explicitly as `staged`) and pickles
`dump_parameters()`. -/
def RNNGuesser.save (g : RNNGuesser) (staged : KerasModel) : SavedDir :=
  ⟨staged, g.dump_parameters⟩

/-- `RNNGuesser.load(directory)`: a fresh `__init__` from the current
configuration, the network file loaded into `model`, then
`load_parameters` on the unpickled blob. -/
def RNNGuesser.load (c : RNNConfig) (dir : SavedDir) : RNNGuesser :=
  RNNGuesser.load_parameters
    { RNNGuesser.init c with model := some dir.model_file } dir.params_file

/-! ## Behavioural lemmas -/

theorem esGuess_ok (g : ESGuesser) (m : HumanModel) (es : SearchOracle)
    (questions : List String) (k : Option Int) (hm : g.is_human_model = some m) :
    g.guess es questions k = .ok (questions.map fun q => pySlice (es q (m q)) k) := by
  unfold ESGuesser.guess
  exact pyMapE_ok questions (by intro a _; rw [hm])

theorem topGuesses_ok (i_to_class : List String) (k : Option Int) (row : List ℚ)
    (h : row.length ≤ i_to_class.length) :
    topGuesses i_to_class k row = .ok (topPairs i_to_class k row) := by
  have hmem : ∀ i ∈ pySlice (argsortDesc row) k, i < i_to_class.length := fun i hi =>
    lt_of_lt_of_le (mem_argsortDesc (pySlice_subset _ _ hi)) h
  have hmap : pyMapE (fun i =>
      match i_to_class.get? i with
      | none => .error (PyError.indexError "list index out of range")
      | some p => .ok p) (pySlice (argsortDesc row) k) =
      .ok ((pySlice (argsortDesc row) k).map fun i => i_to_class.getD i "") := by
    apply pyMapE_ok
    intro i hi
    rw [get?_eq_getD_of_lt (hmem i hi) ""]
  simp only [topGuesses, topPairs, hmap, zip_map_same]

theorem guessEncodeBatch_ok (g : RNNGuesser) (tok : String → List String)
    (questions : List String) (lu : List (String × Nat)) (ml : Nat)
    (h1 : g.embedding_lookup = some lu) (h2 : g.max_len = some ml) :
    g.guessEncodeBatch tok questions = .ok (questions.map fun q =>
      fmtSeq ml 0 (convert_text_to_embeddings_indices (tok q) lu)) := by
  have hmap : pyMapE (fun q =>
      match g.embedding_lookup with
      | none => .error (PyError.typeError "argument of type NoneType is not iterable")
      | some lookup => .ok (convert_text_to_embeddings_indices (tok q) lookup))
      questions =
      .ok (questions.map fun q => convert_text_to_embeddings_indices (tok q) lu) :=
    pyMapE_ok questions (by intro a _; rw [h1])
  simp only [RNNGuesser.guessEncodeBatch, hmap, h2, tf_format, List.map_map]
  rfl

/-- The probability row `guess` computes for one question of a trained
guesser. -/
def rnnRow (net : KerasModel) (lu : List (String × Nat)) (ml : Nat)
    (tok : String → List String) (q : String) : List ℚ :=
  net.predict (fmtSeq ml 0 (convert_text_to_embeddings_indices (tok q) lu))

theorem rnnGuess_ok (g : RNNGuesser) (tok : String → List String)
    (questions : List String) (k : Option Int)
    (net : KerasModel) (m : List String) (lu : List (String × Nat)) (ml : Nat)
    (h1 : g.embedding_lookup = some lu) (h2 : g.max_len = some ml)
    (h3 : g.model = some net) (h4 : g.i_to_class = some m)
    (hcov : ∀ x, (net.predict x).length ≤ m.length) :
    g.guess tok questions k =
      .ok (questions.map fun q => topPairs m k (rnnRow net lu ml tok q)) := by
  have hrows : ∀ q ∈ questions.map (rnnRow net lu ml tok),
      topGuesses m k q = .ok (topPairs m k q) := by
    intro row hrow
    obtain ⟨q, _, rfl⟩ := List.mem_map.mp hrow
    exact topGuesses_ok m k _ (hcov _)
  have hmap := pyMapE_ok (f := topGuesses m k) (g := topPairs m k)
    (questions.map (rnnRow net lu ml tok)) hrows
  simp only [RNNGuesser.guess, guessEncodeBatch_ok g tok questions lu ml h1 h2,
    h3, h4, List.map_map]
  have hcomp : KerasModel.predict net ∘ (fun q =>
      fmtSeq ml 0 (convert_text_to_embeddings_indices (tok q) lu)) =
      rnnRow net lu ml tok := rfl
  rw [hcomp, hmap, List.map_map]
  rfl

theorem build_model_bad (g : RNNGuesser)
    (h1 : ¬ g.rnn_cell = "lstm") (h2 : ¬ g.rnn_cell = "gru")
    (h3 : ¬ g.rnn_cell = "simple_rnn") :
    g.build_model = .error (PyError.valueError
      ("rnn_cell must be lstm, gru, or simple_rdd and was: " ++ g.rnn_cell)) := by
  unfold RNNGuesser.build_model
  rw [if_neg h1, if_neg h2, if_neg h3]

theorem train_bad_cell (g : RNNGuesser) (env : TrainEnv) (td : TrainingData)
    (h1 : ¬ g.rnn_cell = "lstm") (h2 : ¬ g.rnn_cell = "gru")
    (h3 : ¬ g.rnn_cell = "simple_rnn") :
    g.train env td = .error (PyError.valueError
      ("rnn_cell must be lstm, gru, or simple_rdd and was: " ++ g.rnn_cell)) := by
  obtain ⟨rc, ma, ew, em, elk, mlen, itc, cti, vo, nc, mo, mne, bs, mp⟩ := g
  simp only [RNNGuesser.train, RNNGuesser.build_model, buildWithCell] at h1 h2 h3 ⊢
  rw [if_neg h1, if_neg h2, if_neg h3]

theorem pySlice_sublist (l : List α) (k : Option Int) : (pySlice l k).Sublist l := by
  cases k with
  | none => exact List.Sublist.refl l
  | some n =>
    simp only [pySlice]
    split
    · exact List.take_sublist _ _
    · exact List.take_sublist _ _

theorem topPairs_sorted (m : List String) (k : Option Int) (row : List ℚ) :
    List.Sorted (fun a b : String × ℚ => b.2 ≤ a.2) (topPairs m k row) := by
  have hlabels : List.Sorted (rowOrd row) (pySlice (argsortDesc row) k) :=
    List.Pairwise.sublist (pySlice_sublist _ _) (argsortDesc_sorted row)
  refine List.Pairwise.map _ ?_ hlabels
  intro i j hij
  rcases hij with h | ⟨h, _⟩
  · exact le_of_lt h
  · exact le_of_eq h.symm

theorem topPairs_length (m : List String) (k : Option Int) (row : List ℚ) :
    (topPairs m k row).length = (pySlice (argsortDesc row) k).length := by
  simp [topPairs]

theorem argsortDesc_length (row : List ℚ) : (argsortDesc row).length = row.length :=
  ((argsortDesc_perm row).length_eq).trans (List.length_range _)

theorem train_ok_inv (g : RNNGuesser) (env : TrainEnv) (td : TrainingData)
    (o : TrainOutcome) (h : g.train env td = .ok o) :
    o.guesser.embedding_lookup =
      some (env.load_embeddings (env.preprocess td).vocab g.expand_we).2 ∧
    o.guesser.max_len = some (compute_max_len td) ∧
    o.x_train_fmt = (env.preprocess td).x_train.map (fun q =>
      fmtSeq (compute_max_len td) 0 (convert_text_to_embeddings_indices q
        (env.load_embeddings (env.preprocess td).vocab g.expand_we).2)) := by
  simp only [RNNGuesser.train] at h
  split at h
  · exact absurd h (by simp)
  · rename_i spec hspec
    rw [Except.ok.injEq] at h
    subst h
    refine ⟨rfl, rfl, ?_⟩
    simp only [tf_format, List.map_map]
    rfl

/-! ## Concrete fixtures used by witnesses and counterexamples -/

/-- A concrete trained human-classifier: everything is predicted human. -/
def mW : HumanModel := fun _ => true

/-- A concrete search oracle with two hits for every query. -/
def esW : SearchOracle := fun _ _ => [("a", 1), ("b", mkRat 1 2)]

/-- A trained IR guesser. -/
def gESW : ESGuesser := ⟨some mW⟩

/-- A concrete network architecture. -/
def specW : NetSpec :=
  { cell := RNNCell.lstm, vocabSize := 3, outputDim := 300, maskZero := true,
    inputLength := some 4, nClasses := some 2 }

/-- A concrete trained network: every question scores the class
probabilities of the specification's example, `[0.3, 0.7]`. -/
def netW : KerasModel := ⟨specW, fun _ => [mkRat 3 10, mkRat 7 10]⟩

/-- A concrete tokenizer. -/
def tokW : String → List String := fun q => [q]

/-- A concrete embedding lookup. -/
def luW : List (String × Nat) := [("hello", 2)]

/-- The class map of the specification's example scenario:
`{0: "Plato", 1: "Napoleon"}`. -/
def mapW : List String := ["Plato", "Napoleon"]

/-- A concrete RNN configuration with a supported cell. -/
def cW : RNNConfig := ⟨"lstm", 2, false⟩

/-- A concrete RNN configuration with an unsupported cell. -/
def cBadW : RNNConfig := ⟨"foo", 2, false⟩

/-- A trained RNN guesser over the example scenario. -/
def gRNNW : RNNGuesser :=
  { RNNGuesser.init cW with
    embeddings := some [[0], [0], [0]]
    embedding_lookup := some luW
    max_len := some 4
    i_to_class := some mapW
    class_to_i := some [("Plato", 0), ("Napoleon", 1)]
    vocab := some ["hello"]
    n_classes := some 2
    model := some netW }

/-- Preprocessed data for a concrete training run. -/
def ppW : PreprocessedData :=
  { x_train := [["hello"]], y_train := [1], x_test := [["hi"]], y_test := [0],
    vocab := ["hello"], class_to_i := [("Plato", 0), ("Napoleon", 1)],
    i_to_class := ["Plato", "Napoleon"] }

/-- Concrete external collaborators for a training run. -/
def envW : TrainEnv :=
  { preprocess := fun _ => ppW
    load_embeddings := fun _ _ => ([[0], [0], [0]], luW)
    fit := fun _ _ _ _ _ _ _ => (fun _ => [mkRat 3 10, mkRat 7 10], [[1]]) }

/-- A concrete training set. -/
def tdW : TrainingData :=
  { questions := [["hello"], ["hi"]], answers := ["Plato", "Napoleon"] }

/-- The outcome of the concrete training run. -/
def trainOutW : TrainOutcome :=
  match (RNNGuesser.init cW).train envW tdW with
  | .ok o => o
  | .error _ => default

/-! ## The claims -/

/-- Claim C1, counterexample.  The claim quantifies over every integer
`k`; at `k = -1` Python's slice `[:k]` drops the last element instead of
truncating to at most `k`, so with a two-hit search the IR guesser
returns one guess for the question — and `1 ≤ -1` is false. -/
theorem es_rnn_guess_counts_cex :
    gESW.guess esW ["q"] (some (-1)) = .ok [[("a", 1)]] ∧
    ¬ ((([("a", (1 : ℚ))].length : Int)) ≤ -1) :=
  ⟨rfl, by decide⟩

/-- Claim C1 (amended): for every trained guesser, question list, and
`max_n_guesses` that is `None` or a nonnegative integer, `guess` returns
exactly one result list per input question, in input order (the result is
the map of a per-question function over the input list), and when
`max_n_guesses = n` every per-question list has length at most `n` (fewer
is possible).  This holds for both the `ElasticSearchWikidataGuesser` and
the `RNNGuesser`. -/
theorem es_rnn_guess_counts :
    (∀ (g : ESGuesser) (m : HumanModel) (es : SearchOracle) (qs : List String)
       (k : Option Int), g.is_human_model = some m →
      g.guess es qs k = .ok (qs.map fun q => pySlice (es q (m q)) k) ∧
      ∀ n : Int, k = some n → 0 ≤ n →
        ∀ q, ((pySlice (es q (m q)) k).length : Int) ≤ n)
    ∧
    (∀ (g : RNNGuesser) (tok : String → List String) (qs : List String)
       (k : Option Int) (net : KerasModel) (m : List String)
       (lu : List (String × Nat)) (ml : Nat),
      g.embedding_lookup = some lu → g.max_len = some ml →
      g.model = some net → g.i_to_class = some m →
      (∀ x, (net.predict x).length ≤ m.length) →
      g.guess tok qs k = .ok (qs.map fun q => topPairs m k (rnnRow net lu ml tok q)) ∧
      ∀ n : Int, k = some n → 0 ≤ n →
        ∀ q, ((topPairs m k (rnnRow net lu ml tok q)).length : Int) ≤ n) := by
  constructor
  · intro g m es qs k hm
    refine ⟨esGuess_ok g m es qs k hm, ?_⟩
    rintro n rfl hn q
    exact pySlice_length_le _ n hn
  · intro g tok qs k net m lu ml h1 h2 h3 h4 hcov
    refine ⟨rnnGuess_ok g tok qs k net m lu ml h1 h2 h3 h4 hcov, ?_⟩
    rintro n rfl hn q
    rw [topPairs_length]
    exact pySlice_length_le _ n hn

/-- Claim C1, witness: both amended statements applied to concrete
trained guessers with `k = 2`. -/
theorem es_rnn_guess_counts_witness :
    gESW.guess esW ["q"] (some 2) = .ok [[("a", 1), ("b", mkRat 1 2)]] ∧
    gRNNW.guess tokW ["hello"] (some 2) =
      .ok [[("Napoleon", mkRat 7 10), ("Plato", mkRat 3 10)]] :=
  ⟨(es_rnn_guess_counts.1 gESW mW esW ["q"] (some 2) rfl).1,
   (es_rnn_guess_counts.2 gRNNW tokW ["hello"] (some 2) netW mapW luW 4
      rfl rfl rfl rfl (fun _ => Nat.le_refl 2)).1⟩

/-- The derivation rule of `create_is_human_map`, as a lookup equation:
a page present in the instance-of map gets the flag
`'Human' ∈ instance_of_map[p]`, and a page absent from the instance-of
map is *absent* from the human map as well. -/
theorem lookup_create_is_human_map (iom : List (String × List String)) (p : String) :
    List.lookup p (create_is_human_map iom) =
      (List.lookup p iom).map fun props => props.contains "Human" := by
  induction iom with
  | nil => rfl
  | cons hd t ih =>
    obtain ⟨a, props⟩ := hd
    simp only [create_is_human_map, List.map, List.lookup] at ih ⊢
    cases p == a with
    | true => rfl
    | false => exact ih

/-- Claim C2, counterexample.  An answer absent from the instance-of map
does not default to non-human: it is missing from `is_human_map`
entirely, and `format_human_data` (called by `train`) raises `KeyError`
on it instead of proceeding with `False`. -/
theorem is_human_default_cex :
    List.lookup "x" (create_is_human_map []) = none ∧
    format_human_data id (create_is_human_map []) [["hello"]] ["x"] =
      .error (PyError.keyError "x") :=
  ⟨rfl, rfl⟩

/-- Claim C2 (amended): for every answer page `p` *present in the
instance-of map*, `is_human_map[p] == ('Human' in instance_of_map[p])`;
a page absent from the instance-of map is absent from `is_human_map` too,
and `train` then fails with `KeyError` on that page (in
`format_human_data`) rather than defaulting it to non-human. -/
theorem is_human_default :
    (∀ (iom : List (String × List String)) (p : String),
      List.lookup p (create_is_human_map iom) =
        (List.lookup p iom).map fun props => props.contains "Human")
    ∧
    (∀ (fg : String → String) (iom : List (String × List String))
       (q : List String) (p : String),
      List.lookup (fg p) iom = none →
      format_human_data fg (create_is_human_map iom) [q] [p] =
        .error (PyError.keyError (fg p))) := by
  refine ⟨lookup_create_is_human_map, ?_⟩
  intro fg iom q p h
  have hl : List.lookup (fg p) (create_is_human_map iom) = none := by
    rw [lookup_create_is_human_map, h]
    rfl
  simp [format_human_data, pyMapE, hl]

/-- Claim C2, witness: the derivation rule evaluated on a one-entry map,
and the `KeyError` failure evaluated on a page missing from the map. -/
theorem is_human_default_witness :
    List.lookup "x" (create_is_human_map [("x", ["Human"])]) = some true ∧
    format_human_data id (create_is_human_map [("x", ["Human"])]) [["hello"]] ["y"] =
      .error (PyError.keyError "y") :=
  ⟨is_human_default.1 [("x", ["Human"])] "x",
   is_human_default.2 id [("x", ["Human"])] ["hello"] "y" rfl⟩

/-- Claim C3: the RNN decoder selects the `max_n_guesses` classes of
highest probability per question.  `argsortDesc row` is a permutation of
all class ids sorted by `rowOrd` (strictly descending probability, ties
by ascending class id); `guess` returns, per question and in input order,
the `max_n_guesses`-prefix of that permutation mapped through
`i_to_class` and paired with the probabilities; and on the
specification's example (classes `{0: "Plato", 1: "Napoleon"}`,
probabilities `[0.3, 0.7]`, `max_n_guesses = 1`) the guess list is
`[("Napoleon", 0.7)]`. -/
theorem rnn_topk_decode :
    (∀ row : List ℚ,
      (argsortDesc row).Perm (List.range row.length) ∧
      List.Sorted (rowOrd row) (argsortDesc row))
    ∧
    (∀ (g : RNNGuesser) (tok : String → List String) (qs : List String)
       (k : Option Int) (net : KerasModel) (m : List String)
       (lu : List (String × Nat)) (ml : Nat),
      g.embedding_lookup = some lu → g.max_len = some ml →
      g.model = some net → g.i_to_class = some m →
      (∀ x, (net.predict x).length ≤ m.length) →
      g.guess tok qs k = .ok (qs.map fun q => topPairs m k (rnnRow net lu ml tok q)))
    ∧
    gRNNW.guess tokW ["hello"] (some 1) = .ok [[("Napoleon", mkRat 7 10)]] := by
  refine ⟨fun row => ⟨argsortDesc_perm row, argsortDesc_sorted row⟩, ?_, rfl⟩
  intro g tok qs k net m lu ml h1 h2 h3 h4 hcov
  exact rnnGuess_ok g tok qs k net m lu ml h1 h2 h3 h4 hcov

/-- Claim C3, witness: the decoding equation applied to the concrete
trained guesser, with all classes requested. -/
theorem rnn_topk_decode_witness :
    gRNNW.guess tokW ["hi"] none =
      .ok [[("Napoleon", mkRat 7 10), ("Plato", mkRat 3 10)]] :=
  rnn_topk_decode.2.1 gRNNW tokW ["hi"] none netW mapW luW 4
    rfl rfl rfl rfl (fun _ => Nat.le_refl 2)

/-- Claim C4, counterexample.  Neither guesser checks for an untrained
model: `guess` on a fresh guesser dereferences a `None` field
(`is_human_model.transform` in the IR guesser, the `None`
`embedding_lookup` handed to the encoder in the RNN guesser) and dies
with a null-reference-style `AttributeError`/`TypeError`, not with a
"model not initialized" error. -/
theorem untrained_guess_error_cex :
    ESGuesser.guess ⟨none⟩ esW ["q"] (some 1) =
      .error (PyError.attributeError "NoneType object has no attribute transform") ∧
    (RNNGuesser.init cW).guess tokW ["hello"] (some 1) =
      .error (PyError.typeError "argument of type NoneType is not iterable") :=
  ⟨rfl, rfl⟩

/-- Claim C4 (amended): for every guesser that has not been trained or
loaded, calling `guess` on a nonempty question list fails — but with the
null-reference-style failure of dereferencing the `None` model field
(`AttributeError` on `transform` for the IR guesser, a `None`-misuse
`TypeError` in the encoding step for the RNN guesser), not with a clear
"model not initialized" error: no initialization check exists in either
`guess`. -/
theorem untrained_guess_error :
    (∀ (g : ESGuesser) (es : SearchOracle) (q : String) (qs : List String)
       (k : Option Int), g.is_human_model = none →
      g.guess es (q :: qs) k =
        .error (PyError.attributeError "NoneType object has no attribute transform"))
    ∧
    (∀ (g : RNNGuesser) (tok : String → List String) (q : String)
       (qs : List String) (k : Option Int), g.embedding_lookup = none →
      g.guess tok (q :: qs) k =
        .error (PyError.typeError "argument of type NoneType is not iterable")) := by
  constructor
  · intro g es q qs k hm
    unfold ESGuesser.guess
    exact pyMapE_cons_error (by rw [hm]) qs
  · intro g tok q qs k hl
    have henc : pyMapE (fun q =>
        match g.embedding_lookup with
        | none => .error (PyError.typeError "argument of type NoneType is not iterable")
        | some lookup => .ok (convert_text_to_embeddings_indices (tok q) lookup))
        (q :: qs) =
        .error (PyError.typeError "argument of type NoneType is not iterable") :=
      pyMapE_cons_error (by rw [hl]) qs
    simp only [RNNGuesser.guess, RNNGuesser.guessEncodeBatch, henc]

/-- Claim C4, witness: the amended failure mode applied to fresh
guessers over two-question lists. -/
theorem untrained_guess_error_witness :
    ESGuesser.guess ⟨none⟩ esW ["q1", "q2"] none =
      .error (PyError.attributeError "NoneType object has no attribute transform") ∧
    (RNNGuesser.init cBadW).guess tokW ["a", "b"] none =
      .error (PyError.typeError "argument of type NoneType is not iterable") :=
  ⟨untrained_guess_error.1 ⟨none⟩ esW "q1" ["q2"] none rfl,
   untrained_guess_error.2 (RNNGuesser.init cBadW) tokW "a" ["b"] none rfl⟩

/-- Claim C5: save-then-load round trips.  For the IR guesser the loaded
`is_human_model` is the saved one and `guess` outputs are identical on
every question set; for the RNN guesser `load_parameters ∘
dump_parameters` restores all twelve parameter fields, and a full
`save`/`load` (with the staged network file matching the in-memory model,
as `train` leaves it) yields identical `guess` outputs on every question
set under any current configuration. -/
theorem save_load_roundtrip :
    (∀ (g : ESGuesser) (es : SearchOracle) (qs : List String) (k : Option Int),
      (ESGuesser.load g.save).is_human_model = g.is_human_model ∧
      (ESGuesser.load g.save).guess es qs k = g.guess es qs k)
    ∧
    (∀ g gbase : RNNGuesser,
      (gbase.load_parameters g.dump_parameters).rnn_cell = g.rnn_cell ∧
      (gbase.load_parameters g.dump_parameters).min_answers = g.min_answers ∧
      (gbase.load_parameters g.dump_parameters).embeddings = g.embeddings ∧
      (gbase.load_parameters g.dump_parameters).embedding_lookup = g.embedding_lookup ∧
      (gbase.load_parameters g.dump_parameters).max_len = g.max_len ∧
      (gbase.load_parameters g.dump_parameters).i_to_class = g.i_to_class ∧
      (gbase.load_parameters g.dump_parameters).class_to_i = g.class_to_i ∧
      (gbase.load_parameters g.dump_parameters).vocab = g.vocab ∧
      (gbase.load_parameters g.dump_parameters).n_classes = g.n_classes ∧
      (gbase.load_parameters g.dump_parameters).max_n_epochs = g.max_n_epochs ∧
      (gbase.load_parameters g.dump_parameters).batch_size = g.batch_size ∧
      (gbase.load_parameters g.dump_parameters).max_patience = g.max_patience)
    ∧
    (∀ (c : RNNConfig) (g : RNNGuesser) (staged : KerasModel)
       (tok : String → List String) (qs : List String) (k : Option Int),
      g.model = some staged →
      (RNNGuesser.load c (g.save staged)).guess tok qs k = g.guess tok qs k) := by
  refine ⟨fun g es qs k => ⟨rfl, rfl⟩,
    fun g gbase => ⟨rfl, rfl, rfl, rfl, rfl, rfl, rfl, rfl, rfl, rfl, rfl, rfl⟩, ?_⟩
  intro c g staged tok qs k h
  obtain ⟨rc, ma, ew, em, elk, mlen, itc, cti, vo, nc, mo, mne, bs, mp⟩ := g
  cases h
  rfl

/-- Claim C5, witness: the full RNN round trip applied to the concrete
trained guesser, loading under a *different* current configuration. -/
theorem save_load_roundtrip_witness :
    (RNNGuesser.load cBadW (gRNNW.save netW)).guess tokW ["hello"] (some 1) =
      gRNNW.guess tokW ["hello"] (some 1) :=
  save_load_roundtrip.2.2 cBadW gRNNW netW tokW ["hello"] (some 1) rfl

/-- Claim C6: after a successful `train`, inference encodes questions
through exactly the training pipeline.  The trained guesser stores the
embedding lookup and maximum length that `train` computed; the matrix
`train` handed to `fit` is the training questions mapped through
`convert_text_to_embeddings_indices` with that lookup and `fmtSeq` with
that `max_len` and pad value `0`; and for any tokenizer and question
list, `guess`'s encoding step produces exactly the same per-sequence
encoding.  (`nn.convert_text_to_embeddings_indices` and `nn.tf_format`
are modelled from the spec — their file is outside this excerpt — but the
identity holds because both call sites apply the *same* functions with
the *same* stored parameters.) -/
theorem train_guess_same_encoding :
    ∀ (g : RNNGuesser) (env : TrainEnv) (td : TrainingData) (o : TrainOutcome),
      g.train env td = .ok o →
      o.guesser.embedding_lookup =
        some (env.load_embeddings (env.preprocess td).vocab g.expand_we).2 ∧
      o.guesser.max_len = some (compute_max_len td) ∧
      o.x_train_fmt = (env.preprocess td).x_train.map (fun q =>
        fmtSeq (compute_max_len td) 0 (convert_text_to_embeddings_indices q
          (env.load_embeddings (env.preprocess td).vocab g.expand_we).2)) ∧
      ∀ (tok : String → List String) (qs : List String),
        o.guesser.guessEncodeBatch tok qs = .ok (qs.map fun q =>
          fmtSeq (compute_max_len td) 0 (convert_text_to_embeddings_indices (tok q)
            (env.load_embeddings (env.preprocess td).vocab g.expand_we).2)) := by
  intro g env td o h
  obtain ⟨h1, h2, h3⟩ := train_ok_inv g env td o h
  refine ⟨h1, h2, h3, ?_⟩
  intro tok qs
  exact guessEncodeBatch_ok o.guesser tok qs _ _ h1 h2

/-- Claim C6, witness: a concrete training run, after which the trained
guesser encodes the training question `"hello"` to the same row `[2]`
that training produced. -/
theorem train_guess_same_encoding_witness :
    (RNNGuesser.init cW).train envW tdW = .ok trainOutW ∧
    trainOutW.x_train_fmt = [[2]] ∧
    trainOutW.guesser.guessEncodeBatch tokW ["hello"] = .ok [[2]] :=
  ⟨rfl,
   (train_guess_same_encoding (RNNGuesser.init cW) envW tdW trainOutW rfl).2.2.1,
   (train_guess_same_encoding (RNNGuesser.init cW) envW tdW trainOutW rfl).2.2.2
     tokW ["hello"]⟩

/-- Claim C7: any `rnn_cell` other than `lstm`, `gru`, `simple_rnn`
makes `build_model` raise `ValueError` (with the source's message, typo
included), and `train` then fails with that very error for *every*
choice of the external `fit` collaborator — the training loop is never
consulted, so the error precedes any epoch.  For the three supported
values, `build_model` raises nothing once the embeddings matrix is
present (as `train` guarantees at its call site). -/
theorem rnn_cell_validation :
    (∀ g : RNNGuesser,
      ¬ g.rnn_cell = "lstm" → ¬ g.rnn_cell = "gru" → ¬ g.rnn_cell = "simple_rnn" →
      g.build_model = .error (PyError.valueError
        ("rnn_cell must be lstm, gru, or simple_rdd and was: " ++ g.rnn_cell)) ∧
      ∀ (env : TrainEnv) (td : TrainingData),
        g.train env td = .error (PyError.valueError
          ("rnn_cell must be lstm, gru, or simple_rdd and was: " ++ g.rnn_cell)))
    ∧
    (∀ (g : RNNGuesser) (emb : List (List ℚ)), g.embeddings = some emb →
      (g.rnn_cell = "lstm" ∨ g.rnn_cell = "gru" ∨ g.rnn_cell = "simple_rnn") →
      ∃ s, g.build_model = .ok s) := by
  constructor
  · intro g h1 h2 h3
    exact ⟨build_model_bad g h1 h2 h3, fun env td => train_bad_cell g env td h1 h2 h3⟩
  · rintro g emb hemb (hc | hc | hc)
    · exact ⟨{ cell := RNNCell.lstm, vocabSize := emb.length, outputDim := 300,
               maskZero := true, inputLength := g.max_len, nClasses := g.n_classes },
        by simp [RNNGuesser.build_model, buildWithCell, hc, hemb]⟩
    · exact ⟨{ cell := RNNCell.gru, vocabSize := emb.length, outputDim := 300,
               maskZero := true, inputLength := g.max_len, nClasses := g.n_classes },
        by simp [RNNGuesser.build_model, buildWithCell, hc, hemb]⟩
    · exact ⟨{ cell := RNNCell.simpleRNN, vocabSize := emb.length, outputDim := 300,
               maskZero := true, inputLength := g.max_len, nClasses := g.n_classes },
        by simp [RNNGuesser.build_model, buildWithCell, hc, hemb]⟩

/-- Claim C7, witness: a guesser configured with cell `"foo"` fails
`train` with the `ValueError` before any fitting, and the concrete
trained guesser (cell `"lstm"`, embeddings present) builds without
raising. -/
theorem rnn_cell_validation_witness :
    (RNNGuesser.init cBadW).train envW tdW = .error (PyError.valueError
      "rnn_cell must be lstm, gru, or simple_rdd and was: foo") ∧
    ∃ s, gRNNW.build_model = .ok s :=
  ⟨((rnn_cell_validation.1 (RNNGuesser.init cBadW)
      (by decide) (by decide) (by decide)).2 envW tdW),
   rnn_cell_validation.2 gRNNW [[0], [0], [0]] rfl (Or.inl rfl)⟩

/-- Claim C8: deleting the `qb` index when none exists raises
`NotFoundError`, but `ElasticSearchIndex.build` catches it (the miss is
only logged) and proceeds; starting from *any* index state — present or
absent — `build` succeeds and the rebuilt index holds exactly one
document per answer page of the `documents` mapping, combining that
page's aggregated question text, its external reference content, and its
human flag, provided every page has a human-flag entry. -/
theorem index_build_one_doc_per_page :
    indexDelete ⟨none⟩ = .error PyError.notFoundError ∧
    ∀ (st : ESState) (documents : List (String × String))
      (is_human_map : List (String × Bool)) (cw : String → String),
      (∀ p ∈ documents.map Prod.fst, (List.lookup p is_human_map).isSome) →
      ElasticSearchIndex.build st documents is_human_map cw =
        .ok ⟨some (documents.map fun pq =>
          { page := pq.1, wiki_content := cw pq.1, qb_content := pq.2,
            is_human := (List.lookup pq.1 is_human_map).getD false })⟩ := by
  refine ⟨rfl, ?_⟩
  intro st documents is_human_map cw h
  have hmap : pyMapE (fun pq =>
      match List.lookup pq.1 is_human_map with
      | none => .error (PyError.keyError pq.1)
      | some ih =>
        .ok { page := pq.1, wiki_content := cw pq.1, qb_content := pq.2,
              is_human := ih }) documents =
      .ok (documents.map fun pq =>
        ({ page := pq.1, wiki_content := cw pq.1, qb_content := pq.2,
           is_human := (List.lookup pq.1 is_human_map).getD false } : AnswerDoc)) := by
    apply pyMapE_ok
    intro pq hpq
    have hs := h pq.1 (List.mem_map_of_mem Prod.fst hpq)
    cases hlk : List.lookup pq.1 is_human_map with
    | none => rw [hlk] at hs; simp at hs
    | some b => simp [hlk]
  simp only [ElasticSearchIndex.build, hmap]

/-- Claim C8, witness: rebuilding from a missing index with one answer
page inserts exactly its document. -/
theorem index_build_one_doc_per_page_witness :
    ElasticSearchIndex.build ⟨none⟩ [("Napoleon", "french emperor")]
      [("Napoleon", true)] (fun _ => "wiki") =
      .ok ⟨some [{ page := "Napoleon", wiki_content := "wiki",
                   qb_content := "french emperor", is_human := true }]⟩ :=
  index_build_one_doc_per_page.2 ⟨none⟩ [("Napoleon", "french emperor")]
    [("Napoleon", true)] (fun _ => "wiki") (by decide)

/-- Claim C9: with `max_n_guesses = None` no truncation happens.  The IR
guesser returns every hit of the search for each question; the RNN
guesser returns all `n_classes` classes per question (when the network
emits `n_classes` probabilities and the class map covers them), still in
descending probability order. -/
theorem none_no_truncation :
    (∀ (g : ESGuesser) (m : HumanModel) (es : SearchOracle) (qs : List String),
      g.is_human_model = some m →
      g.guess es qs none = .ok (qs.map fun q => es q (m q)))
    ∧
    (∀ (g : RNNGuesser) (tok : String → List String) (qs : List String)
       (net : KerasModel) (m : List String) (lu : List (String × Nat))
       (ml : Nat) (nc : Nat),
      g.embedding_lookup = some lu → g.max_len = some ml →
      g.model = some net → g.i_to_class = some m → g.n_classes = some nc →
      (∀ x, (net.predict x).length = nc) → nc ≤ m.length →
      g.guess tok qs none =
        .ok (qs.map fun q => topPairs m none (rnnRow net lu ml tok q)) ∧
      ∀ q, (topPairs m none (rnnRow net lu ml tok q)).length = nc ∧
        List.Sorted (fun a b : String × ℚ => b.2 ≤ a.2)
          (topPairs m none (rnnRow net lu ml tok q))) := by
  constructor
  · intro g m es qs hm
    have := esGuess_ok g m es qs none hm
    simpa [pySlice] using this
  · intro g tok qs net m lu ml nc h1 h2 h3 h4 hnc hlen hcov
    have hcov2 : ∀ x, (net.predict x).length ≤ m.length := fun x =>
      (hlen x) ▸ hcov
    refine ⟨rnnGuess_ok g tok qs none net m lu ml h1 h2 h3 h4 hcov2, ?_⟩
    intro q
    refine ⟨?_, topPairs_sorted m none (rnnRow net lu ml tok q)⟩
    rw [topPairs_length, pySlice_none, argsortDesc_length]
    exact hlen _

/-- Claim C9, witness: both no-truncation statements applied to the
concrete trained guessers: two search hits and both classes come back. -/
theorem none_no_truncation_witness :
    gESW.guess esW ["a", "b"] none =
      .ok [[("a", 1), ("b", mkRat 1 2)], [("a", 1), ("b", mkRat 1 2)]] ∧
    gRNNW.guess tokW ["x"] none =
      .ok [[("Napoleon", mkRat 7 10), ("Plato", mkRat 3 10)]] :=
  ⟨none_no_truncation.1 gESW mW esW ["a", "b"] rfl,
   (none_no_truncation.2 gRNNW tokW ["x"] netW mapW luW 4 2
      rfl rfl rfl rfl rfl (fun _ => rfl) (Nat.le_refl 2)).1⟩

/-- Claim C10: `RNNGuesser.load` restores every one of the twelve dumped
parameter fields from the persisted blob — for *every* current
configuration, so the blob overrides whatever `__init__` read from
`conf` — and installs the loaded network file as the model. -/
theorem load_restores_params :
    ∀ (c : RNNConfig) (dir : SavedDir),
      (RNNGuesser.load c dir).rnn_cell = dir.params_file.rnn_cell ∧
      (RNNGuesser.load c dir).min_answers = dir.params_file.min_answers ∧
      (RNNGuesser.load c dir).embeddings = dir.params_file.embeddings ∧
      (RNNGuesser.load c dir).embedding_lookup = dir.params_file.embedding_lookup ∧
      (RNNGuesser.load c dir).max_len = dir.params_file.max_len ∧
      (RNNGuesser.load c dir).i_to_class = dir.params_file.i_to_class ∧
      (RNNGuesser.load c dir).class_to_i = dir.params_file.class_to_i ∧
      (RNNGuesser.load c dir).vocab = dir.params_file.vocab ∧
      (RNNGuesser.load c dir).n_classes = dir.params_file.n_classes ∧
      (RNNGuesser.load c dir).max_n_epochs = dir.params_file.max_n_epochs ∧
      (RNNGuesser.load c dir).batch_size = dir.params_file.batch_size ∧
      (RNNGuesser.load c dir).max_patience = dir.params_file.max_patience ∧
      (RNNGuesser.load c dir).model = some dir.model_file :=
  fun _ _ =>
    ⟨rfl, rfl, rfl, rfl, rfl, rfl, rfl, rfl, rfl, rfl, rfl, rfl, rfl⟩

end QB
